import Mathlib

/-!
Depth rendering and custom depth: shader permutation rules and target sets.

A shallow embedding of the inline code of
`Engine/Source/Runtime/Renderer/Private/DepthRendering.h`,
`Engine/Source/Runtime/Renderer/Private/CustomDepthRendering.h` and
`Engine/Source/Runtime/Renderer/Public/SceneRenderTargetParameters.h`.

Conventions of the embedding

* A C++ `bool` is a Lean `Bool`; `&&`, `||`, `!` are the Boolean operators.
* A pointer is an `Option`: `none` is `nullptr`.
* `uint32` is `Fin 4294967296`.
* Code that dereferences a pointer returns an `Except`: dereferencing `nullptr`
  is the error `Fault.NullDereference`.
* Engine types and functions that the headers use but do not declare
  (`ERDGPassFlags`, `ERenderTargetLoadAction`, `EBlendMode`,
  `IsTranslucentBlendMode`, `FMeshDrawSingleShaderBindings::Add`, the base
  class `FMeshMaterialShader`) are parameters of the definitions that use them,
  so every theorem holds for each way the engine may define them.
-/

namespace DepthRendering

/-! ## DepthRendering.h -/

/-- The `EDepthDrawingMode` enumeration (DepthRendering.h, lines 20-34). -/
inductive EDepthDrawingMode where
  | DDM_None
  | DDM_NonMaskedOnly
  | DDM_AllOccluders
  | DDM_AllOpaque
  | DDM_MaskedOnly
  | DDM_AllOpaqueNoVelocity
  deriving DecidableEq, Repr

/-- The `FDepthPassInfo` struct (DepthRendering.h, lines 38-54). The type of the
render graph pass flags is declared elsewhere in the engine and is a parameter. -/
structure FDepthPassInfo (ERDGPassFlags : Type) where
  EarlyZPassMode : EDepthDrawingMode
  bEarlyZPassMovable : Bool
  bDitheredLODTransitionsUseStencil : Bool
  StencilDitherPassFlags : ERDGPassFlags

/-- The member initialisers of `FDepthPassInfo` (lines 50-53); `Raster` stands for
`ERDGPassFlags::Raster`. -/
def FDepthPassInfo.declared {ERDGPassFlags : Type} (Raster : ERDGPassFlags) :
    FDepthPassInfo ERDGPassFlags :=
  { EarlyZPassMode := EDepthDrawingMode.DDM_None
    bEarlyZPassMovable := false
    bDitheredLODTransitionsUseStencil := false
    StencilDitherPassFlags := Raster }

/-- `FDepthPassInfo::IsComputeStencilDitherEnabled` (line 40-43). -/
def FDepthPassInfo.IsComputeStencilDitherEnabled {ERDGPassFlags : Type}
    [DecidableEq ERDGPassFlags] (Raster : ERDGPassFlags)
    (self : FDepthPassInfo ERDGPassFlags) : Bool :=
  (self.StencilDitherPassFlags != Raster) && self.bDitheredLODTransitionsUseStencil

/-- `FDepthPassInfo::IsRasterStencilDitherEnabled` (line 45-48). -/
def FDepthPassInfo.IsRasterStencilDitherEnabled {ERDGPassFlags : Type}
    [DecidableEq ERDGPassFlags] (Raster : ERDGPassFlags)
    (self : FDepthPassInfo ERDGPassFlags) : Bool :=
  (self.StencilDitherPassFlags == Raster) && self.bDitheredLODTransitionsUseStencil

/-- The members of `FMaterialShaderParameters` that the depth shaders read. The
struct is declared elsewhere in the engine; `BlendMode` stands for what
`IsTranslucentBlendMode` inspects, of a type left as a parameter. -/
structure FMaterialShaderParameters (EBlendMode : Type) where
  BlendMode : EBlendMode
  bIsSpecialEngineMaterial : Bool
  bIsTranslucencyWritingCustomDepth : Bool
  bWritesEveryPixel : Bool
  bMaterialMayModifyMeshPosition : Bool
  bHasPixelDepthOffsetConnected : Bool

/-- The two queries the depth shaders make on a `FVertexFactoryType`, each
recorded by the value it returns. -/
structure FVertexFactoryType where
  SupportsPositionOnly : Bool
  SupportsNaniteRendering : Bool
  deriving DecidableEq, Repr

/-- The members of `FMeshMaterialShaderPermutationParameters` read by the depth
shaders. -/
structure FMeshMaterialShaderPermutationParameters (EBlendMode : Type) where
  MaterialParameters : FMaterialShaderParameters EBlendMode
  VertexFactoryType : FVertexFactoryType

/-- `TDepthOnlyVS<bUsePositionOnlyStream>::ShouldCompilePermutation`
(DepthRendering.h, lines 79-98). The template argument is the first argument;
`IsTranslucentBlendMode` is the engine function called at line 87. -/
def TDepthOnlyVS.ShouldCompilePermutation {EBlendMode : Type}
    (bUsePositionOnlyStream : Bool)
    (IsTranslucentBlendMode : FMaterialShaderParameters EBlendMode → Bool)
    (Parameters : FMeshMaterialShaderPermutationParameters EBlendMode) : Bool :=
  if bUsePositionOnlyStream then
    Parameters.VertexFactoryType.SupportsPositionOnly
      && Parameters.MaterialParameters.bIsSpecialEngineMaterial
  else if IsTranslucentBlendMode Parameters.MaterialParameters then
    Parameters.MaterialParameters.bIsTranslucencyWritingCustomDepth
  else
    (Parameters.MaterialParameters.bIsSpecialEngineMaterial
      || !Parameters.MaterialParameters.bWritesEveryPixel
      || Parameters.MaterialParameters.bMaterialMayModifyMeshPosition)
      && !Parameters.VertexFactoryType.SupportsNaniteRendering

/-- `FDepthOnlyPS::ShouldCompilePermutation` (DepthRendering.h, lines 146-157). -/
def FDepthOnlyPS.ShouldCompilePermutation {EBlendMode : Type}
    (IsTranslucentBlendMode : FMaterialShaderParameters EBlendMode → Bool)
    (Parameters : FMeshMaterialShaderPermutationParameters EBlendMode) : Bool :=
  if IsTranslucentBlendMode Parameters.MaterialParameters then
    Parameters.MaterialParameters.bIsTranslucencyWritingCustomDepth
  else
    (!Parameters.MaterialParameters.bWritesEveryPixel
      || Parameters.MaterialParameters.bHasPixelDepthOffsetConnected)
      && !Parameters.VertexFactoryType.SupportsNaniteRendering

/-- A 32-bit unsigned machine integer. -/
abbrev uint32 : Type := Fin 4294967296

/-- The class `FDepthOnlyShaderElementData` (lines 126-137): the base class
subobject, whose type is declared elsewhere, and the two added members. -/
structure FDepthOnlyShaderElementData (FMeshMaterialShaderElementData : Type) where
  toFMeshMaterialShaderElementData : FMeshMaterialShaderElementData
  DasStencil : uint32
  DasCustom : uint32

/-- The constructor `FDepthOnlyShaderElementData(nDasStencil, nDasCustom)`
(lines 129-133); `base` is the default-constructed base class subobject. -/
def FDepthOnlyShaderElementData.construct {FMeshMaterialShaderElementData : Type}
    (base : FMeshMaterialShaderElementData) (nDasStencil nDasCustom : uint32) :
    FDepthOnlyShaderElementData FMeshMaterialShaderElementData :=
  { toFMeshMaterialShaderElementData := base
    DasStencil := nDasStencil
    DasCustom := nDasCustom }

/-- The constructor called without arguments: both default arguments are `0`
(line 129). -/
def FDepthOnlyShaderElementData.constructDefault {FMeshMaterialShaderElementData : Type}
    (base : FMeshMaterialShaderElementData) :
    FDepthOnlyShaderElementData FMeshMaterialShaderElementData :=
  FDepthOnlyShaderElementData.construct base 0 0

/-- The two layout fields of `FDepthOnlyPS` (lines 198-199). -/
structure FDepthOnlyPS (FShaderParameter : Type) where
  DasStencil : FShaderParameter
  DasCustom : FShaderParameter

/-- `FDepthOnlyPS::GetShaderBindings` (lines 182-197). `baseGetShaderBindings`
is `FMeshMaterialShader::GetShaderBindings` with the arguments that are passed
through unchanged already applied; `Add` is
`FMeshDrawSingleShaderBindings::Add`. The bindings object, mutated in place by
the code, is passed and returned. -/
def FDepthOnlyPS.GetShaderBindings
    {FShaderParameter FMeshMaterialShaderElementData FMeshDrawSingleShaderBindings : Type}
    (baseGetShaderBindings :
      FMeshMaterialShaderElementData → FMeshDrawSingleShaderBindings →
        FMeshDrawSingleShaderBindings)
    (Add : FShaderParameter → uint32 → FMeshDrawSingleShaderBindings →
      FMeshDrawSingleShaderBindings)
    (self : FDepthOnlyPS FShaderParameter)
    (ShaderElementData : FDepthOnlyShaderElementData FMeshMaterialShaderElementData)
    (ShaderBindings : FMeshDrawSingleShaderBindings) : FMeshDrawSingleShaderBindings :=
  let ShaderBindings1 :=
    baseGetShaderBindings ShaderElementData.toFMeshMaterialShaderElementData ShaderBindings
  let ShaderBindings2 := Add self.DasStencil ShaderElementData.DasStencil ShaderBindings1
  Add self.DasCustom ShaderElementData.DasCustom ShaderBindings2

/-- A bindings object that records, in order, each parameter and value added to
it. -/
abbrev BindingLog (FShaderParameter : Type) : Type := List (FShaderParameter × uint32)

/-- Adding to a `BindingLog` appends the pair at the end. -/
def BindingLog.Add {FShaderParameter : Type} (Parameter : FShaderParameter)
    (Value : uint32) (self : BindingLog FShaderParameter) : BindingLog FShaderParameter :=
  self ++ [(Parameter, Value)]

/-! ## CustomDepthRendering.h -/

/-- The `ECustomDepthPassLocation` enumeration (CustomDepthRendering.h, lines 10-17). -/
inductive ECustomDepthPassLocation where
  | BeforeBasePass
  | AfterBasePass
  deriving DecidableEq, Repr

/-- The `ECustomDepthMode` enumeration (CustomDepthRendering.h, lines 22-32). -/
inductive ECustomDepthMode where
  | Disabled
  | Enabled
  | EnabledWithStencil
  deriving DecidableEq, Repr

/-- `IsCustomDepthPassEnabled` (lines 37-40). The argument is the value returned
by the external `GetCustomDepthMode()`. -/
def IsCustomDepthPassEnabled (GetCustomDepthMode : ECustomDepthMode) : Bool :=
  GetCustomDepthMode != ECustomDepthMode.Disabled

/-- A `FRDGTextureRef`: a pointer to a render graph texture, `none` when null. -/
abbrev FRDGTextureRef : Type := Option Nat

/-- A `FRDGTextureSRVRef`: a pointer to a render graph texture view, `none` when
null. -/
abbrev FRDGTextureSRVRef : Type := Option Nat

/-- The `FCustomDepthTextures` struct (lines 42-66). The load action enumeration
is declared elsewhere in the engine and is a parameter. -/
structure FCustomDepthTextures (ERenderTargetLoadAction : Type) where
  Depth : FRDGTextureRef
  Stencil : FRDGTextureSRVRef
  DasDepth : FRDGTextureRef
  DasStencil : FRDGTextureRef
  DasCustom : FRDGTextureRef
  DasCustomDepthOn : FRDGTextureRef
  bSeparateStencilBuffer : Bool
  DepthAction : ERenderTargetLoadAction
  StencilAction : ERenderTargetLoadAction

/-- The member initialisers of `FCustomDepthTextures` (lines 51-65); `EClear`
stands for `ERenderTargetLoadAction::EClear`. -/
def FCustomDepthTextures.declared {ERenderTargetLoadAction : Type}
    (EClear : ERenderTargetLoadAction) : FCustomDepthTextures ERenderTargetLoadAction :=
  { Depth := none
    Stencil := none
    DasDepth := none
    DasStencil := none
    DasCustom := none
    DasCustomDepthOn := none
    bSeparateStencilBuffer := false
    DepthAction := EClear
    StencilAction := EClear }

/-- `FCustomDepthTextures::IsValid` (lines 46-49). -/
def FCustomDepthTextures.IsValid {ERenderTargetLoadAction : Type}
    (self : FCustomDepthTextures ERenderTargetLoadAction) : Bool :=
  self.Depth != none

/-! ## SceneRenderTargetParameters.h -/

/-- What goes wrong when code dereferences a null pointer. -/
inductive Fault where
  | NullDereference
  deriving DecidableEq, Repr

/-- A `TRefCountPtr<ReferencedType>`: the smart pointer holds one raw pointer,
`none` when null. The class is declared elsewhere in the engine; only the raw
pointer it holds matters to the getters below. -/
structure TRefCountPtr (ReferencedType : Type) where
  Reference : Option ReferencedType

/-- `TRefCountPtr::IsValid`: the held pointer is not null. -/
def TRefCountPtr.IsValid {ReferencedType : Type} (self : TRefCountPtr ReferencedType) : Bool :=
  self.Reference.isSome

/-- `TRefCountPtr::GetReference`: the held raw pointer. -/
def TRefCountPtr.GetReference {ReferencedType : Type} (self : TRefCountPtr ReferencedType) :
    Option ReferencedType :=
  self.Reference

/-- The smart pointer used as a condition, as in `Depth ? ... : ...`: it
converts to its raw pointer, which is true when not null. -/
def TRefCountPtr.asCondition {ReferencedType : Type} (self : TRefCountPtr ReferencedType) :
    Bool :=
  self.Reference.isSome

/-- `TRefCountPtr::operator->`: the object pointed to; a fault when the held
pointer is null. -/
def TRefCountPtr.arrow {ReferencedType : Type} (self : TRefCountPtr ReferencedType) :
    Except Fault ReferencedType :=
  match self.Reference with
  | some Object => Except.ok Object
  | none => Except.error Fault.NullDereference

/-- A `TUniformBufferRef<TBufferStruct>`: a reference-counting pointer to a
`FRHIUniformBuffer`, whatever the parameter struct. -/
abbrev TUniformBufferRef (FRHIUniformBuffer : Type) : Type := TRefCountPtr FRHIUniformBuffer

/-- The data members of `FSceneTextureExtracts` (lines 188-203). The pooled
render target and uniform buffer classes are declared elsewhere in the engine
and are parameters. -/
structure FSceneTextureExtracts (IPooledRenderTarget FRHIUniformBuffer : Type) where
  Depth : TRefCountPtr IPooledRenderTarget
  PartialDepth : TRefCountPtr IPooledRenderTarget
  CustomDepth : TRefCountPtr IPooledRenderTarget
  DasDepth : TRefCountPtr IPooledRenderTarget
  DasStencil : TRefCountPtr IPooledRenderTarget
  DasCustom : TRefCountPtr IPooledRenderTarget
  DasCustomDepthOn : TRefCountPtr IPooledRenderTarget
  UniformBuffer : TUniformBufferRef FRHIUniformBuffer
  MobileUniformBuffer : TUniformBufferRef FRHIUniformBuffer

/-- `FSceneTextureExtracts::GetUniformBuffer` (lines 130-133). -/
def FSceneTextureExtracts.GetUniformBuffer {IPooledRenderTarget FRHIUniformBuffer : Type}
    (self : FSceneTextureExtracts IPooledRenderTarget FRHIUniformBuffer) :
    Option FRHIUniformBuffer :=
  if self.UniformBuffer.IsValid then self.UniformBuffer.GetReference
  else self.MobileUniformBuffer.GetReference

/-- `FSceneTextureExtracts::GetDepthTexture` (lines 149-152). `GetRHI` is
`IPooledRenderTarget::GetRHI`, which returns a `FRHITexture*`. -/
def FSceneTextureExtracts.GetDepthTexture
    {IPooledRenderTarget FRHIUniformBuffer FRHITexture : Type}
    (GetRHI : IPooledRenderTarget → Option FRHITexture)
    (self : FSceneTextureExtracts IPooledRenderTarget FRHIUniformBuffer) :
    Except Fault (Option FRHITexture) :=
  if self.Depth.asCondition then do
    let Target ← self.Depth.arrow
    pure (GetRHI Target)
  else pure none

/-- `FSceneTextureExtracts::GetDasDepth` (lines 158-161). -/
def FSceneTextureExtracts.GetDasDepth
    {IPooledRenderTarget FRHIUniformBuffer FRHITexture : Type}
    (GetRHI : IPooledRenderTarget → Option FRHITexture)
    (self : FSceneTextureExtracts IPooledRenderTarget FRHIUniformBuffer) :
    Except Fault (Option FRHITexture) :=
  if self.DasDepth.asCondition then do
    let Target ← self.DasDepth.arrow
    pure (GetRHI Target)
  else pure none

/-- `FSceneTextureExtracts::GetDasStencil` (lines 163-166). -/
def FSceneTextureExtracts.GetDasStencil
    {IPooledRenderTarget FRHIUniformBuffer FRHITexture : Type}
    (GetRHI : IPooledRenderTarget → Option FRHITexture)
    (self : FSceneTextureExtracts IPooledRenderTarget FRHIUniformBuffer) :
    Except Fault (Option FRHITexture) :=
  if self.DasStencil.asCondition then do
    let Target ← self.DasStencil.arrow
    pure (GetRHI Target)
  else pure none

/-- `FSceneTextureExtracts::GetDasCustom` (lines 168-171). -/
def FSceneTextureExtracts.GetDasCustom
    {IPooledRenderTarget FRHIUniformBuffer FRHITexture : Type}
    (GetRHI : IPooledRenderTarget → Option FRHITexture)
    (self : FSceneTextureExtracts IPooledRenderTarget FRHIUniformBuffer) :
    Except Fault (Option FRHITexture) :=
  if self.DasCustom.asCondition then do
    let Target ← self.DasCustom.arrow
    pure (GetRHI Target)
  else pure none

/-- `FSceneTextureExtracts::GetDasCustomDepthOn` (lines 173-176). -/
def FSceneTextureExtracts.GetDasCustomDepthOn
    {IPooledRenderTarget FRHIUniformBuffer FRHITexture : Type}
    (GetRHI : IPooledRenderTarget → Option FRHITexture)
    (self : FSceneTextureExtracts IPooledRenderTarget FRHIUniformBuffer) :
    Except Fault (Option FRHITexture) :=
  if self.DasCustomDepthOn.asCondition then do
    let Target ← self.DasCustomDepthOn.arrow
    pure (GetRHI Target)
  else pure none

/-- A worked input: both uniform buffers extracted (standard `7`, mobile `9`),
scene depth and the `DasDepth` target extracted (pooled targets `1` and `2`),
the other targets null. -/
def bothBuffersExtracted : FSceneTextureExtracts Nat Nat :=
  { Depth := { Reference := some 1 }
    PartialDepth := { Reference := none }
    CustomDepth := { Reference := none }
    DasDepth := { Reference := some 2 }
    DasStencil := { Reference := none }
    DasCustom := { Reference := none }
    DasCustomDepthOn := { Reference := none }
    UniformBuffer := { Reference := some 7 }
    MobileUniformBuffer := { Reference := some 9 } }

/-- A worked `GetRHI`: the pooled target numbered `n` holds the RHI texture
numbered `100 + n`. -/
def rhiOfPooledTarget (Target : Nat) : Option Nat :=
  some (100 + Target)

/-- A blend mode test for worked examples: the blend mode of the material is a
Boolean that is true for a translucent blend mode. -/
def translucentWhenSet (In : FMaterialShaderParameters Bool) : Bool :=
  In.BlendMode

/-- A worked input: an opaque-blended masked material (it does not write every
pixel, no pixel depth offset) on a vertex factory that supports Nanite
rendering. -/
def maskedOnNanite : FMeshMaterialShaderPermutationParameters Bool :=
  { MaterialParameters :=
      { BlendMode := false
        bIsSpecialEngineMaterial := false
        bIsTranslucencyWritingCustomDepth := false
        bWritesEveryPixel := false
        bMaterialMayModifyMeshPosition := false
        bHasPixelDepthOffsetConnected := false }
    VertexFactoryType := { SupportsPositionOnly := false, SupportsNaniteRendering := true } }

/-- A worked input: a translucent special engine material flagged as writing
custom depth, on a vertex factory that supports both Nanite rendering and a
position-only stream. -/
def translucentFlaggedOnNanite : FMeshMaterialShaderPermutationParameters Bool :=
  { MaterialParameters :=
      { BlendMode := true
        bIsSpecialEngineMaterial := true
        bIsTranslucencyWritingCustomDepth := true
        bWritesEveryPixel := true
        bMaterialMayModifyMeshPosition := false
        bHasPixelDepthOffsetConnected := false }
    VertexFactoryType := { SupportsPositionOnly := true, SupportsNaniteRendering := true } }

/-- A worked input: a translucent special engine material that is not flagged as
writing custom depth, on a vertex factory with a position-only stream and
without Nanite support. -/
def translucentUnflaggedSpecial : FMeshMaterialShaderPermutationParameters Bool :=
  { MaterialParameters :=
      { BlendMode := true
        bIsSpecialEngineMaterial := true
        bIsTranslucencyWritingCustomDepth := false
        bWritesEveryPixel := true
        bMaterialMayModifyMeshPosition := false
        bHasPixelDepthOffsetConnected := false }
    VertexFactoryType := { SupportsPositionOnly := true, SupportsNaniteRendering := false } }

/-- A worked input: a translucent material flagged as writing custom depth that
writes every pixel and has no pixel depth offset, on a plain vertex factory. -/
def translucentFlaggedOpaquePixels : FMeshMaterialShaderPermutationParameters Bool :=
  { MaterialParameters :=
      { BlendMode := true
        bIsSpecialEngineMaterial := false
        bIsTranslucencyWritingCustomDepth := true
        bWritesEveryPixel := true
        bMaterialMayModifyMeshPosition := false
        bHasPixelDepthOffsetConnected := false }
    VertexFactoryType := { SupportsPositionOnly := false, SupportsNaniteRendering := false } }

/-- A worked input: an opaque-blended masked material on a plain vertex factory
with a position-only stream. -/
def maskedOnLocal : FMeshMaterialShaderPermutationParameters Bool :=
  { MaterialParameters :=
      { BlendMode := false
        bIsSpecialEngineMaterial := false
        bIsTranslucencyWritingCustomDepth := false
        bWritesEveryPixel := false
        bMaterialMayModifyMeshPosition := false
        bHasPixelDepthOffsetConnected := false }
    VertexFactoryType := { SupportsPositionOnly := true, SupportsNaniteRendering := false } }

/-- A worked input: the special engine material, opaque, writing every pixel, on
a vertex factory with a position-only stream. -/
def defaultMaterialOnLocal : FMeshMaterialShaderPermutationParameters Bool :=
  { MaterialParameters :=
      { BlendMode := false
        bIsSpecialEngineMaterial := true
        bIsTranslucencyWritingCustomDepth := false
        bWritesEveryPixel := true
        bMaterialMayModifyMeshPosition := false
        bHasPixelDepthOffsetConnected := false }
    VertexFactoryType := { SupportsPositionOnly := true, SupportsNaniteRendering := false } }

/-- A worked input: stencil dithering in use with pass flags `2`, where `1`
plays `ERDGPassFlags::Raster`. -/
def ditherForcedCompute : FDepthPassInfo Nat :=
  { EarlyZPassMode := EDepthDrawingMode.DDM_AllOpaque
    bEarlyZPassMovable := false
    bDitheredLODTransitionsUseStencil := true
    StencilDitherPassFlags := 2 }

/-- A worked input: a translucent material that is not flagged as writing custom
depth (masked, not the special engine material), on a vertex factory that
supports Nanite rendering and has no position-only stream. -/
def translucentUnflaggedOnNanite : FMeshMaterialShaderPermutationParameters Bool :=
  { MaterialParameters :=
      { BlendMode := true
        bIsSpecialEngineMaterial := false
        bIsTranslucencyWritingCustomDepth := false
        bWritesEveryPixel := false
        bMaterialMayModifyMeshPosition := false
        bHasPixelDepthOffsetConnected := false }
    VertexFactoryType := { SupportsPositionOnly := false, SupportsNaniteRendering := true } }

/-- A worked input: a masked opaque-blended material with a pixel depth offset
connected, on a plain vertex factory. -/
def maskedWithOffset : FMeshMaterialShaderPermutationParameters Bool :=
  { MaterialParameters :=
      { BlendMode := false
        bIsSpecialEngineMaterial := false
        bIsTranslucencyWritingCustomDepth := false
        bWritesEveryPixel := false
        bMaterialMayModifyMeshPosition := false
        bHasPixelDepthOffsetConnected := true }
    VertexFactoryType := { SupportsPositionOnly := false, SupportsNaniteRendering := false } }

/-! ## Position-only vertex stage -/

/-- C1. `TDepthOnlyVS<true>::ShouldCompilePermutation` returns true exactly when
the vertex factory supports a position-only stream and the material is the
special engine material; it is false for every material that is not the special
engine material; and two inputs that agree on those two flags give the same
result, whatever their other flags and whatever the blend mode test says. -/
theorem positionOnly_eligible_iff {EBlendMode : Type}
    (IsTranslucentBlendMode : FMaterialShaderParameters EBlendMode → Bool)
    (Parameters : FMeshMaterialShaderPermutationParameters EBlendMode) :
    (TDepthOnlyVS.ShouldCompilePermutation true IsTranslucentBlendMode Parameters = true ↔
        (Parameters.VertexFactoryType.SupportsPositionOnly = true ∧
          Parameters.MaterialParameters.bIsSpecialEngineMaterial = true)) ∧
    (Parameters.MaterialParameters.bIsSpecialEngineMaterial = false →
        TDepthOnlyVS.ShouldCompilePermutation true IsTranslucentBlendMode Parameters = false) ∧
    (∀ (IsTranslucentBlendMode2 : FMaterialShaderParameters EBlendMode → Bool)
        (Other : FMeshMaterialShaderPermutationParameters EBlendMode),
        Other.VertexFactoryType.SupportsPositionOnly
            = Parameters.VertexFactoryType.SupportsPositionOnly →
        Other.MaterialParameters.bIsSpecialEngineMaterial
            = Parameters.MaterialParameters.bIsSpecialEngineMaterial →
        TDepthOnlyVS.ShouldCompilePermutation true IsTranslucentBlendMode2 Other
          = TDepthOnlyVS.ShouldCompilePermutation true IsTranslucentBlendMode Parameters) := by
  refine ⟨?_, ?_, ?_⟩
  · simp [TDepthOnlyVS.ShouldCompilePermutation]
  · intro h
    simp [TDepthOnlyVS.ShouldCompilePermutation, h]
  · intro isT2 Other h1 h2
    simp [TDepthOnlyVS.ShouldCompilePermutation, h1, h2]

/-- Witness for C1 at the special engine material on a position-only vertex
factory, compared with a masked material on the same vertex factory. -/
theorem positionOnly_eligible_iff_witness :
    TDepthOnlyVS.ShouldCompilePermutation true translucentWhenSet defaultMaterialOnLocal = true ∧
    TDepthOnlyVS.ShouldCompilePermutation true translucentWhenSet maskedOnLocal = false :=
  ⟨(positionOnly_eligible_iff translucentWhenSet defaultMaterialOnLocal).1.2 ⟨rfl, rfl⟩,
    (positionOnly_eligible_iff translucentWhenSet maskedOnLocal).2.1 rfl⟩

/-! ## Pixel stage -/

/-- C2, as stated, fails: a masked material with an opaque blend mode on a
vertex factory that supports Nanite rendering gets no depth-only pixel shader. -/
theorem pixelStage_masked_nanite_not_compiled :
    ¬ ((maskedOnNanite.MaterialParameters.bWritesEveryPixel = false ∨
          maskedOnNanite.MaterialParameters.bHasPixelDepthOffsetConnected = true ∨
          (translucentWhenSet maskedOnNanite.MaterialParameters = true ∧
            maskedOnNanite.MaterialParameters.bIsTranslucencyWritingCustomDepth = true)) →
        FDepthOnlyPS.ShouldCompilePermutation translucentWhenSet maskedOnNanite = true) := by
  decide

/-- C2, amended. `FDepthOnlyPS::ShouldCompilePermutation` returns true whenever
the material is translucent and flagged as writing custom depth, or the material
is not translucent, the vertex factory does not support Nanite rendering, and
the material is masked or has a pixel depth offset connected. -/
theorem pixelStage_required {EBlendMode : Type}
    (IsTranslucentBlendMode : FMaterialShaderParameters EBlendMode → Bool)
    (Parameters : FMeshMaterialShaderPermutationParameters EBlendMode)
    (h : (IsTranslucentBlendMode Parameters.MaterialParameters = true ∧
            Parameters.MaterialParameters.bIsTranslucencyWritingCustomDepth = true) ∨
          (IsTranslucentBlendMode Parameters.MaterialParameters = false ∧
            Parameters.VertexFactoryType.SupportsNaniteRendering = false ∧
            (Parameters.MaterialParameters.bWritesEveryPixel = false ∨
              Parameters.MaterialParameters.bHasPixelDepthOffsetConnected = true))) :
    FDepthOnlyPS.ShouldCompilePermutation IsTranslucentBlendMode Parameters = true := by
  rcases h with ⟨ht, hf⟩ | ⟨ht, hn, hm | hp⟩
  · simp [FDepthOnlyPS.ShouldCompilePermutation, ht, hf]
  · simp [FDepthOnlyPS.ShouldCompilePermutation, ht, hn, hm]
  · simp [FDepthOnlyPS.ShouldCompilePermutation, ht, hn, hp]

/-- Witness for the amended C2: a masked material on a plain vertex factory. -/
theorem pixelStage_required_witness :
    FDepthOnlyPS.ShouldCompilePermutation translucentWhenSet maskedOnLocal = true :=
  pixelStage_required translucentWhenSet maskedOnLocal (Or.inr ⟨rfl, rfl, Or.inl rfl⟩)

/-! ## Nanite vertex factories -/

/-- C3, as stated, fails: for a translucent special engine material flagged as
writing custom depth, on a vertex factory that supports Nanite rendering and a
position-only stream, all three permutation tests return true. -/
theorem nanite_translucent_flagged_compiled :
    translucentFlaggedOnNanite.VertexFactoryType.SupportsNaniteRendering = true ∧
    TDepthOnlyVS.ShouldCompilePermutation true translucentWhenSet translucentFlaggedOnNanite
      = true ∧
    TDepthOnlyVS.ShouldCompilePermutation false translucentWhenSet translucentFlaggedOnNanite
      = true ∧
    FDepthOnlyPS.ShouldCompilePermutation translucentWhenSet translucentFlaggedOnNanite
      = true := by
  decide

/-- C3, amended. For every material that is not a translucent material flagged
as writing custom depth, if the vertex factory supports Nanite rendering then
`TDepthOnlyVS<false>` and `FDepthOnlyPS` are not compiled; `TDepthOnlyVS<true>`
is then not compiled either as soon as the vertex factory has no position-only
stream or the material is not the special engine material. -/
theorem nanite_excluded {EBlendMode : Type}
    (IsTranslucentBlendMode : FMaterialShaderParameters EBlendMode → Bool)
    (Parameters : FMeshMaterialShaderPermutationParameters EBlendMode)
    (hNanite : Parameters.VertexFactoryType.SupportsNaniteRendering = true)
    (hGate : ¬ (IsTranslucentBlendMode Parameters.MaterialParameters = true ∧
      Parameters.MaterialParameters.bIsTranslucencyWritingCustomDepth = true)) :
    TDepthOnlyVS.ShouldCompilePermutation false IsTranslucentBlendMode Parameters = false ∧
    FDepthOnlyPS.ShouldCompilePermutation IsTranslucentBlendMode Parameters = false ∧
    ((Parameters.VertexFactoryType.SupportsPositionOnly = false ∨
        Parameters.MaterialParameters.bIsSpecialEngineMaterial = false) →
      TDepthOnlyVS.ShouldCompilePermutation true IsTranslucentBlendMode Parameters = false) := by
  have hFlag : IsTranslucentBlendMode Parameters.MaterialParameters = true →
      Parameters.MaterialParameters.bIsTranslucencyWritingCustomDepth = false := by
    intro ht
    cases hf : Parameters.MaterialParameters.bIsTranslucencyWritingCustomDepth
    · rfl
    · exact absurd ⟨ht, hf⟩ hGate
  refine ⟨?_, ?_, ?_⟩
  · cases ht : IsTranslucentBlendMode Parameters.MaterialParameters
    · simp [TDepthOnlyVS.ShouldCompilePermutation, hNanite, ht]
    · simp [TDepthOnlyVS.ShouldCompilePermutation, ht, hFlag ht]
  · cases ht : IsTranslucentBlendMode Parameters.MaterialParameters
    · simp [FDepthOnlyPS.ShouldCompilePermutation, hNanite, ht]
    · simp [FDepthOnlyPS.ShouldCompilePermutation, ht, hFlag ht]
  · rintro (h | h) <;> simp [TDepthOnlyVS.ShouldCompilePermutation, h]

/-- Witness for the amended C3, on a Nanite vertex factory without a
position-only stream: a masked opaque-blended material, and a translucent
material that is not flagged as writing custom depth. -/
theorem nanite_excluded_witness :
    (TDepthOnlyVS.ShouldCompilePermutation false translucentWhenSet maskedOnNanite = false ∧
      FDepthOnlyPS.ShouldCompilePermutation translucentWhenSet maskedOnNanite = false ∧
      TDepthOnlyVS.ShouldCompilePermutation true translucentWhenSet maskedOnNanite = false) ∧
    (TDepthOnlyVS.ShouldCompilePermutation false translucentWhenSet
        translucentUnflaggedOnNanite = false ∧
      FDepthOnlyPS.ShouldCompilePermutation translucentWhenSet
        translucentUnflaggedOnNanite = false ∧
      TDepthOnlyVS.ShouldCompilePermutation true translucentWhenSet
        translucentUnflaggedOnNanite = false) :=
  have h := nanite_excluded translucentWhenSet maskedOnNanite rfl (by decide)
  have g := nanite_excluded translucentWhenSet translucentUnflaggedOnNanite rfl (by decide)
  ⟨⟨h.1, h.2.1, h.2.2 (Or.inl rfl)⟩, ⟨g.1, g.2.1, g.2.2 (Or.inl rfl)⟩⟩

/-! ## Translucent materials -/

/-- C4, as stated, fails: a translucent special engine material that is not
flagged as writing custom depth, on a vertex factory with a position-only
stream, still passes the position-only vertex shader test. -/
theorem translucent_unflagged_positionOnly_compiled :
    translucentWhenSet translucentUnflaggedSpecial.MaterialParameters = true ∧
    translucentUnflaggedSpecial.MaterialParameters.bIsTranslucencyWritingCustomDepth = false ∧
    TDepthOnlyVS.ShouldCompilePermutation true translucentWhenSet translucentUnflaggedSpecial
      = true := by
  decide

/-- C4, amended. For every material with a translucent blend mode:
`TDepthOnlyVS<false>` and `FDepthOnlyPS` are compiled exactly when the material
is flagged as writing custom depth (both true when flagged, both false when
not); when it is not flagged, `TDepthOnlyVS<true>` is not compiled either as
soon as the vertex factory has no position-only stream or the material is not
the special engine material. -/
theorem translucent_gate {EBlendMode : Type}
    (IsTranslucentBlendMode : FMaterialShaderParameters EBlendMode → Bool)
    (Parameters : FMeshMaterialShaderPermutationParameters EBlendMode)
    (hTranslucent : IsTranslucentBlendMode Parameters.MaterialParameters = true) :
    (Parameters.MaterialParameters.bIsTranslucencyWritingCustomDepth = true →
      TDepthOnlyVS.ShouldCompilePermutation false IsTranslucentBlendMode Parameters = true ∧
      FDepthOnlyPS.ShouldCompilePermutation IsTranslucentBlendMode Parameters = true) ∧
    (Parameters.MaterialParameters.bIsTranslucencyWritingCustomDepth = false →
      TDepthOnlyVS.ShouldCompilePermutation false IsTranslucentBlendMode Parameters = false ∧
      FDepthOnlyPS.ShouldCompilePermutation IsTranslucentBlendMode Parameters = false ∧
      ((Parameters.VertexFactoryType.SupportsPositionOnly = false ∨
          Parameters.MaterialParameters.bIsSpecialEngineMaterial = false) →
        TDepthOnlyVS.ShouldCompilePermutation true IsTranslucentBlendMode Parameters
          = false)) := by
  refine ⟨?_, ?_⟩
  · intro hf
    simp [TDepthOnlyVS.ShouldCompilePermutation, FDepthOnlyPS.ShouldCompilePermutation,
      hTranslucent, hf]
  · intro hf
    refine ⟨?_, ?_, ?_⟩
    · simp [TDepthOnlyVS.ShouldCompilePermutation, hTranslucent, hf]
    · simp [FDepthOnlyPS.ShouldCompilePermutation, hTranslucent, hf]
    · rintro (h | h) <;> simp [TDepthOnlyVS.ShouldCompilePermutation, h]

/-- Witness for the amended C4: the flagged translucent material gets the
full-attribute vertex shader and the pixel shader. -/
theorem translucent_gate_witness :
    TDepthOnlyVS.ShouldCompilePermutation false translucentWhenSet
      translucentFlaggedOpaquePixels = true ∧
    FDepthOnlyPS.ShouldCompilePermutation translucentWhenSet
      translucentFlaggedOpaquePixels = true :=
  (translucent_gate translucentWhenSet translucentFlaggedOpaquePixels rfl).1 rfl

/-! ## Materials that write every pixel -/

/-- C5, as stated, fails: a translucent material flagged as writing custom
depth that writes every pixel and has no pixel depth offset gets a pixel
shader. -/
theorem opaquePixels_translucent_flagged_has_pixelStage :
    translucentFlaggedOpaquePixels.MaterialParameters.bWritesEveryPixel = true ∧
    translucentFlaggedOpaquePixels.MaterialParameters.bHasPixelDepthOffsetConnected = false ∧
    FDepthOnlyPS.ShouldCompilePermutation translucentWhenSet translucentFlaggedOpaquePixels
      = true := by
  decide

/-- C5, amended. For every material that writes every pixel and has no pixel
depth offset connected, and that is not a translucent material flagged as
writing custom depth, `FDepthOnlyPS::ShouldCompilePermutation` returns false. -/
theorem opaquePixels_no_pixelStage {EBlendMode : Type}
    (IsTranslucentBlendMode : FMaterialShaderParameters EBlendMode → Bool)
    (Parameters : FMeshMaterialShaderPermutationParameters EBlendMode)
    (hWrites : Parameters.MaterialParameters.bWritesEveryPixel = true)
    (hOffset : Parameters.MaterialParameters.bHasPixelDepthOffsetConnected = false)
    (hGate : ¬ (IsTranslucentBlendMode Parameters.MaterialParameters = true ∧
      Parameters.MaterialParameters.bIsTranslucencyWritingCustomDepth = true)) :
    FDepthOnlyPS.ShouldCompilePermutation IsTranslucentBlendMode Parameters = false := by
  unfold FDepthOnlyPS.ShouldCompilePermutation
  split
  · next ht =>
    cases hf : Parameters.MaterialParameters.bIsTranslucencyWritingCustomDepth
    · rfl
    · exact absurd ⟨ht, hf⟩ hGate
  · simp [hWrites, hOffset]

/-- Witness for the amended C5: the special engine material, opaque and writing
every pixel. -/
theorem opaquePixels_no_pixelStage_witness :
    FDepthOnlyPS.ShouldCompilePermutation translucentWhenSet defaultMaterialOnLocal = false :=
  opaquePixels_no_pixelStage translucentWhenSet defaultMaterialOnLocal rfl rfl (by decide)

/-! ## Stencil dither mode -/

/-- C6. For every `FDepthPassInfo`: when `bDitheredLODTransitionsUseStencil` is
true, the raster predicate is true and the compute one false if
`StencilDitherPassFlags` equals `ERDGPassFlags::Raster`, and the compute
predicate is true and the raster one false for every other flags value; when it
is false both predicates are false; the two are never both true. -/
theorem stencilDither_mode_exclusive {ERDGPassFlags : Type} [DecidableEq ERDGPassFlags]
    (Raster : ERDGPassFlags) (Info : FDepthPassInfo ERDGPassFlags) :
    (Info.bDitheredLODTransitionsUseStencil = true →
      (Info.StencilDitherPassFlags = Raster →
        Info.IsRasterStencilDitherEnabled Raster = true ∧
        Info.IsComputeStencilDitherEnabled Raster = false) ∧
      (Info.StencilDitherPassFlags ≠ Raster →
        Info.IsComputeStencilDitherEnabled Raster = true ∧
        Info.IsRasterStencilDitherEnabled Raster = false)) ∧
    (Info.bDitheredLODTransitionsUseStencil = false →
      Info.IsComputeStencilDitherEnabled Raster = false ∧
      Info.IsRasterStencilDitherEnabled Raster = false) ∧
    ¬ (Info.IsComputeStencilDitherEnabled Raster = true ∧
      Info.IsRasterStencilDitherEnabled Raster = true) := by
  refine ⟨?_, ?_, ?_⟩
  · intro hb
    refine ⟨?_, ?_⟩
    · intro hf
      simp [FDepthPassInfo.IsRasterStencilDitherEnabled,
        FDepthPassInfo.IsComputeStencilDitherEnabled, hb, hf]
    · intro hf
      simp [FDepthPassInfo.IsRasterStencilDitherEnabled,
        FDepthPassInfo.IsComputeStencilDitherEnabled, hb, hf]
  · intro hb
    simp [FDepthPassInfo.IsRasterStencilDitherEnabled,
      FDepthPassInfo.IsComputeStencilDitherEnabled, hb]
  · rintro ⟨hc, hr⟩
    simp only [FDepthPassInfo.IsRasterStencilDitherEnabled,
      FDepthPassInfo.IsComputeStencilDitherEnabled, Bool.and_eq_true, bne_iff_ne, ne_eq,
      beq_iff_eq] at hc hr
    exact hc.1 hr.1

/-- Witness for C6: with stencil dithering in use and flags other than raster,
the compute predicate holds and the raster one does not. -/
theorem stencilDither_mode_exclusive_witness :
    ditherForcedCompute.IsComputeStencilDitherEnabled 1 = true ∧
    ditherForcedCompute.IsRasterStencilDitherEnabled 1 = false :=
  ((stencilDither_mode_exclusive 1 ditherForcedCompute).1 rfl).2 (by decide)

/-! ## Custom depth target set -/

/-- C7. `IsValid()` is true exactly when `Depth` is non-null; a target set whose
only assigned member is a non-null `Depth` is valid, has
`bSeparateStencilBuffer == false` and both load actions equal to `EClear`; and
the target set with every member at its declared initialiser is not valid. -/
theorem customDepthTextures_valid_iff {ERenderTargetLoadAction : Type}
    (EClear : ERenderTargetLoadAction)
    (Textures : FCustomDepthTextures ERenderTargetLoadAction) (Texture : Nat) :
    (Textures.IsValid = true ↔ Textures.Depth ≠ none) ∧
    ({ FCustomDepthTextures.declared EClear with Depth := some Texture }
        : FCustomDepthTextures ERenderTargetLoadAction).IsValid = true ∧
    ({ FCustomDepthTextures.declared EClear with Depth := some Texture }
        : FCustomDepthTextures ERenderTargetLoadAction).bSeparateStencilBuffer = false ∧
    ({ FCustomDepthTextures.declared EClear with Depth := some Texture }
        : FCustomDepthTextures ERenderTargetLoadAction).DepthAction = EClear ∧
    ({ FCustomDepthTextures.declared EClear with Depth := some Texture }
        : FCustomDepthTextures ERenderTargetLoadAction).StencilAction = EClear ∧
    (FCustomDepthTextures.declared EClear).IsValid = false := by
  refine ⟨?_, ?_, rfl, rfl, rfl, ?_⟩
  · simp [FCustomDepthTextures.IsValid]
  · simp [FCustomDepthTextures.IsValid]
  · simp [FCustomDepthTextures.IsValid, FCustomDepthTextures.declared]

/-! ## Custom depth mode -/

/-- C8. For each of the three custom depth modes, `IsCustomDepthPassEnabled`
returns true exactly when the mode is not `Disabled`: true for `Enabled` and
`EnabledWithStencil`, false for `Disabled`. -/
theorem isCustomDepthPassEnabled_iff (Mode : ECustomDepthMode) :
    (IsCustomDepthPassEnabled Mode = true ↔ Mode ≠ ECustomDepthMode.Disabled) ∧
    IsCustomDepthPassEnabled ECustomDepthMode.Enabled = true ∧
    IsCustomDepthPassEnabled ECustomDepthMode.EnabledWithStencil = true ∧
    IsCustomDepthPassEnabled ECustomDepthMode.Disabled = false := by
  refine ⟨?_, by decide, by decide, by decide⟩
  cases Mode <;> decide

/-! ## Per-draw mask parameters -/

/-- C9. `FDepthOnlyShaderElementData(s, c)` carries `DasStencil == s` and
`DasCustom == c`, the default-constructed value carries `0` and `0`, and
`FDepthOnlyPS::GetShaderBindings` on that element data yields the base class
bindings followed by `Add(DasStencil, s)` and then `Add(DasCustom, c)`; on a
bindings object that records what is added, the result is the base class
record followed by exactly those two entries in that order. -/
theorem depthOnlyPS_bindings
    {FShaderParameter FMeshMaterialShaderElementData FMeshDrawSingleShaderBindings : Type}
    (base : FMeshMaterialShaderElementData) (s c : uint32)
    (baseGetShaderBindings :
      FMeshMaterialShaderElementData → FMeshDrawSingleShaderBindings →
        FMeshDrawSingleShaderBindings)
    (Add : FShaderParameter → uint32 → FMeshDrawSingleShaderBindings →
      FMeshDrawSingleShaderBindings)
    (baseLog : FMeshMaterialShaderElementData → BindingLog FShaderParameter →
      BindingLog FShaderParameter)
    (Shader : FDepthOnlyPS FShaderParameter)
    (ShaderBindings : FMeshDrawSingleShaderBindings)
    (Log : BindingLog FShaderParameter) :
    (FDepthOnlyShaderElementData.construct base s c).DasStencil = s ∧
    (FDepthOnlyShaderElementData.construct base s c).DasCustom = c ∧
    (FDepthOnlyShaderElementData.constructDefault base).DasStencil = 0 ∧
    (FDepthOnlyShaderElementData.constructDefault base).DasCustom = 0 ∧
    FDepthOnlyPS.GetShaderBindings baseGetShaderBindings Add Shader
        (FDepthOnlyShaderElementData.construct base s c) ShaderBindings
      = Add Shader.DasCustom c
          (Add Shader.DasStencil s (baseGetShaderBindings base ShaderBindings)) ∧
    FDepthOnlyPS.GetShaderBindings baseLog BindingLog.Add Shader
        (FDepthOnlyShaderElementData.construct base s c) Log
      = baseLog base Log ++ [(Shader.DasStencil, s), (Shader.DasCustom, c)] := by
  refine ⟨rfl, rfl, rfl, rfl, rfl, ?_⟩
  simp [FDepthOnlyPS.GetShaderBindings, FDepthOnlyShaderElementData.construct,
    BindingLog.Add]

/-! ## Pixel stage implies a full-attribute vertex stage -/

/-- C10. Whenever `FDepthOnlyPS::ShouldCompilePermutation` is true and the
material does not both write every pixel and have a pixel depth offset
connected, `TDepthOnlyVS<false>::ShouldCompilePermutation` is true as well. -/
theorem pixelStage_has_vertexStage {EBlendMode : Type}
    (IsTranslucentBlendMode : FMaterialShaderParameters EBlendMode → Bool)
    (Parameters : FMeshMaterialShaderPermutationParameters EBlendMode)
    (hPixel : FDepthOnlyPS.ShouldCompilePermutation IsTranslucentBlendMode Parameters = true)
    (hNot : ¬ (Parameters.MaterialParameters.bWritesEveryPixel = true ∧
      Parameters.MaterialParameters.bHasPixelDepthOffsetConnected = true)) :
    TDepthOnlyVS.ShouldCompilePermutation false IsTranslucentBlendMode Parameters = true := by
  unfold FDepthOnlyPS.ShouldCompilePermutation at hPixel
  unfold TDepthOnlyVS.ShouldCompilePermutation
  cases ht : IsTranslucentBlendMode Parameters.MaterialParameters
  · simp only [ht, Bool.false_eq_true, if_false, Bool.and_eq_true, Bool.or_eq_true,
      Bool.not_eq_true'] at hPixel ⊢
    obtain ⟨hm | hp, hn⟩ := hPixel
    · exact ⟨Or.inl (Or.inr hm), hn⟩
    · cases hw : Parameters.MaterialParameters.bWritesEveryPixel
      · exact ⟨Or.inl (Or.inr rfl), hn⟩
      · exact absurd ⟨hw, hp⟩ hNot
  · simpa [ht] using hPixel

/-- Witness for C10: a masked material with a pixel depth offset connected gets
both the pixel shader and the full-attribute vertex shader. -/
theorem pixelStage_has_vertexStage_witness :
    FDepthOnlyPS.ShouldCompilePermutation translucentWhenSet maskedWithOffset = true ∧
    TDepthOnlyVS.ShouldCompilePermutation false translucentWhenSet maskedWithOffset = true :=
  ⟨by decide, pixelStage_has_vertexStage translucentWhenSet maskedWithOffset (by decide)
    (by decide)⟩

/-! ## Extracted scene textures -/

/-- C11. `GetUniformBuffer()` returns the standard uniform buffer whenever the
standard one is valid, also when the mobile one is valid too; it returns the
mobile uniform buffer when the standard one is not valid; and it returns null
exactly when neither of the two is valid. -/
theorem getUniformBuffer_prefers_standard {IPooledRenderTarget FRHIUniformBuffer : Type}
    (Extracts : FSceneTextureExtracts IPooledRenderTarget FRHIUniformBuffer) :
    (Extracts.UniformBuffer.IsValid = true →
      Extracts.GetUniformBuffer = Extracts.UniformBuffer.GetReference) ∧
    (Extracts.UniformBuffer.IsValid = false →
      Extracts.GetUniformBuffer = Extracts.MobileUniformBuffer.GetReference) ∧
    (Extracts.GetUniformBuffer = none ↔
      (Extracts.UniformBuffer.IsValid = false ∧
        Extracts.MobileUniformBuffer.IsValid = false)) := by
  refine ⟨?_, ?_, ?_⟩
  · intro h
    simp [FSceneTextureExtracts.GetUniformBuffer, h]
  · intro h
    simp [FSceneTextureExtracts.GetUniformBuffer, h]
  · unfold FSceneTextureExtracts.GetUniformBuffer TRefCountPtr.IsValid
      TRefCountPtr.GetReference
    cases hu : Extracts.UniformBuffer.Reference <;>
      cases hm : Extracts.MobileUniformBuffer.Reference <;> simp

/-- Witness for C11: with both uniform buffers valid the standard one is
returned. -/
theorem getUniformBuffer_prefers_standard_witness :
    bothBuffersExtracted.MobileUniformBuffer.IsValid = true ∧
    bothBuffersExtracted.GetUniformBuffer = some 7 :=
  ⟨rfl, (getUniformBuffer_prefers_standard bothBuffersExtracted).1 rfl⟩

/-- The shape shared by the five texture getters: test the pointer, then call
`GetRHI` through it. It never faults, and yields null for a null pointer and the
value of `GetRHI` on the target otherwise. -/
theorem guarded_getRHI_eq {IPooledRenderTarget FRHITexture : Type}
    (GetRHI : IPooledRenderTarget → Option FRHITexture)
    (Pointer : TRefCountPtr IPooledRenderTarget) :
    (if Pointer.asCondition then do
        let Target ← Pointer.arrow
        pure (GetRHI Target)
      else pure none : Except Fault (Option FRHITexture))
      = Except.ok (Pointer.Reference.bind GetRHI) := by
  rcases Pointer with ⟨_ | Target⟩ <;> rfl

/-- `GetDepthTexture` in closed form. -/
theorem getDepthTexture_eq {IPooledRenderTarget FRHIUniformBuffer FRHITexture : Type}
    (GetRHI : IPooledRenderTarget → Option FRHITexture)
    (Extracts : FSceneTextureExtracts IPooledRenderTarget FRHIUniformBuffer) :
    Extracts.GetDepthTexture GetRHI = Except.ok (Extracts.Depth.Reference.bind GetRHI) :=
  guarded_getRHI_eq GetRHI Extracts.Depth

/-- `GetDasDepth` in closed form. -/
theorem getDasDepth_eq {IPooledRenderTarget FRHIUniformBuffer FRHITexture : Type}
    (GetRHI : IPooledRenderTarget → Option FRHITexture)
    (Extracts : FSceneTextureExtracts IPooledRenderTarget FRHIUniformBuffer) :
    Extracts.GetDasDepth GetRHI = Except.ok (Extracts.DasDepth.Reference.bind GetRHI) :=
  guarded_getRHI_eq GetRHI Extracts.DasDepth

/-- `GetDasStencil` in closed form. -/
theorem getDasStencil_eq {IPooledRenderTarget FRHIUniformBuffer FRHITexture : Type}
    (GetRHI : IPooledRenderTarget → Option FRHITexture)
    (Extracts : FSceneTextureExtracts IPooledRenderTarget FRHIUniformBuffer) :
    Extracts.GetDasStencil GetRHI = Except.ok (Extracts.DasStencil.Reference.bind GetRHI) :=
  guarded_getRHI_eq GetRHI Extracts.DasStencil

/-- `GetDasCustom` in closed form. -/
theorem getDasCustom_eq {IPooledRenderTarget FRHIUniformBuffer FRHITexture : Type}
    (GetRHI : IPooledRenderTarget → Option FRHITexture)
    (Extracts : FSceneTextureExtracts IPooledRenderTarget FRHIUniformBuffer) :
    Extracts.GetDasCustom GetRHI = Except.ok (Extracts.DasCustom.Reference.bind GetRHI) :=
  guarded_getRHI_eq GetRHI Extracts.DasCustom

/-- `GetDasCustomDepthOn` in closed form. -/
theorem getDasCustomDepthOn_eq {IPooledRenderTarget FRHIUniformBuffer FRHITexture : Type}
    (GetRHI : IPooledRenderTarget → Option FRHITexture)
    (Extracts : FSceneTextureExtracts IPooledRenderTarget FRHIUniformBuffer) :
    Extracts.GetDasCustomDepthOn GetRHI
      = Except.ok (Extracts.DasCustomDepthOn.Reference.bind GetRHI) :=
  guarded_getRHI_eq GetRHI Extracts.DasCustomDepthOn

/-- C12. Each of `GetDepthTexture`, `GetDasDepth`, `GetDasStencil`,
`GetDasCustom` and `GetDasCustomDepthOn` returns null when its own render
target pointer is null, returns `GetRHI()` of the target otherwise, never
dereferences a null pointer, and gives the same result on any other state that
holds the same pointer in that one member. -/
theorem texture_getters_null_safe {IPooledRenderTarget FRHIUniformBuffer FRHITexture : Type}
    (GetRHI : IPooledRenderTarget → Option FRHITexture)
    (Extracts : FSceneTextureExtracts IPooledRenderTarget FRHIUniformBuffer) :
    ((Extracts.Depth.Reference = none → Extracts.GetDepthTexture GetRHI = Except.ok none) ∧
      (∀ Target, Extracts.Depth.Reference = some Target →
        Extracts.GetDepthTexture GetRHI = Except.ok (GetRHI Target)) ∧
      Extracts.GetDepthTexture GetRHI ≠ Except.error Fault.NullDereference ∧
      (∀ Other : FSceneTextureExtracts IPooledRenderTarget FRHIUniformBuffer,
        Other.Depth = Extracts.Depth →
        Other.GetDepthTexture GetRHI = Extracts.GetDepthTexture GetRHI)) ∧
    ((Extracts.DasDepth.Reference = none → Extracts.GetDasDepth GetRHI = Except.ok none) ∧
      (∀ Target, Extracts.DasDepth.Reference = some Target →
        Extracts.GetDasDepth GetRHI = Except.ok (GetRHI Target)) ∧
      Extracts.GetDasDepth GetRHI ≠ Except.error Fault.NullDereference ∧
      (∀ Other : FSceneTextureExtracts IPooledRenderTarget FRHIUniformBuffer,
        Other.DasDepth = Extracts.DasDepth →
        Other.GetDasDepth GetRHI = Extracts.GetDasDepth GetRHI)) ∧
    ((Extracts.DasStencil.Reference = none →
        Extracts.GetDasStencil GetRHI = Except.ok none) ∧
      (∀ Target, Extracts.DasStencil.Reference = some Target →
        Extracts.GetDasStencil GetRHI = Except.ok (GetRHI Target)) ∧
      Extracts.GetDasStencil GetRHI ≠ Except.error Fault.NullDereference ∧
      (∀ Other : FSceneTextureExtracts IPooledRenderTarget FRHIUniformBuffer,
        Other.DasStencil = Extracts.DasStencil →
        Other.GetDasStencil GetRHI = Extracts.GetDasStencil GetRHI)) ∧
    ((Extracts.DasCustom.Reference = none →
        Extracts.GetDasCustom GetRHI = Except.ok none) ∧
      (∀ Target, Extracts.DasCustom.Reference = some Target →
        Extracts.GetDasCustom GetRHI = Except.ok (GetRHI Target)) ∧
      Extracts.GetDasCustom GetRHI ≠ Except.error Fault.NullDereference ∧
      (∀ Other : FSceneTextureExtracts IPooledRenderTarget FRHIUniformBuffer,
        Other.DasCustom = Extracts.DasCustom →
        Other.GetDasCustom GetRHI = Extracts.GetDasCustom GetRHI)) ∧
    ((Extracts.DasCustomDepthOn.Reference = none →
        Extracts.GetDasCustomDepthOn GetRHI = Except.ok none) ∧
      (∀ Target, Extracts.DasCustomDepthOn.Reference = some Target →
        Extracts.GetDasCustomDepthOn GetRHI = Except.ok (GetRHI Target)) ∧
      Extracts.GetDasCustomDepthOn GetRHI ≠ Except.error Fault.NullDereference ∧
      (∀ Other : FSceneTextureExtracts IPooledRenderTarget FRHIUniformBuffer,
        Other.DasCustomDepthOn = Extracts.DasCustomDepthOn →
        Other.GetDasCustomDepthOn GetRHI = Extracts.GetDasCustomDepthOn GetRHI)) := by
  refine ⟨⟨?_, ?_, ?_, ?_⟩, ⟨?_, ?_, ?_, ?_⟩, ⟨?_, ?_, ?_, ?_⟩, ⟨?_, ?_, ?_, ?_⟩,
    ⟨?_, ?_, ?_, ?_⟩⟩
  · intro h
    rw [getDepthTexture_eq, h]; rfl
  · intro Target h
    rw [getDepthTexture_eq, h]; rfl
  · rw [getDepthTexture_eq]
    exact fun h => Except.noConfusion h
  · intro Other h
    rw [getDepthTexture_eq, getDepthTexture_eq, h]
  · intro h
    rw [getDasDepth_eq, h]; rfl
  · intro Target h
    rw [getDasDepth_eq, h]; rfl
  · rw [getDasDepth_eq]
    exact fun h => Except.noConfusion h
  · intro Other h
    rw [getDasDepth_eq, getDasDepth_eq, h]
  · intro h
    rw [getDasStencil_eq, h]; rfl
  · intro Target h
    rw [getDasStencil_eq, h]; rfl
  · rw [getDasStencil_eq]
    exact fun h => Except.noConfusion h
  · intro Other h
    rw [getDasStencil_eq, getDasStencil_eq, h]
  · intro h
    rw [getDasCustom_eq, h]; rfl
  · intro Target h
    rw [getDasCustom_eq, h]; rfl
  · rw [getDasCustom_eq]
    exact fun h => Except.noConfusion h
  · intro Other h
    rw [getDasCustom_eq, getDasCustom_eq, h]
  · intro h
    rw [getDasCustomDepthOn_eq, h]; rfl
  · intro Target h
    rw [getDasCustomDepthOn_eq, h]; rfl
  · rw [getDasCustomDepthOn_eq]
    exact fun h => Except.noConfusion h
  · intro Other h
    rw [getDasCustomDepthOn_eq, getDasCustomDepthOn_eq, h]

/-- Witness for C12: the extracted `DasDepth` target yields its RHI texture
and the null `DasStencil` target yields null. -/
theorem texture_getters_null_safe_witness :
    bothBuffersExtracted.GetDasDepth rhiOfPooledTarget = Except.ok (some 102) ∧
    bothBuffersExtracted.GetDasStencil rhiOfPooledTarget = Except.ok none :=
  ⟨(texture_getters_null_safe rhiOfPooledTarget bothBuffersExtracted).2.1.2.1 2 rfl,
    (texture_getters_null_safe rhiOfPooledTarget bothBuffersExtracted).2.2.1.1 rfl⟩

end DepthRendering
